import Mathlib

/-!
# Verification of the MeuCHATBOT04 conversation-history manager and response normalizer

Shallow embedding of the two Python source files `app.py` and `aula07.py`:
the chat-history trimming function `limitar_historico`, the response
normalizer `extract_flowise_text`, the upstream clients `flowise_predict`
and `flowise_upsert` (with the network outcome as an explicit parameter),
and the request handler `enviar_mensagem` (with the Flask session store as
explicit state).  Python values decoded from JSON are modelled by `JVal`;
Python exceptions are modelled by `Option` results (`none` = uncaught
exception).
-/

/-- A chat message: Python dict `{"role": ..., "content": ...}`. -/
structure Message where
  role : String
  content : String
deriving DecidableEq, Repr

/-- A Python value decoded from JSON (the values `extract_flowise_text` and
the upstream clients handle): `None`, booleans, numbers (modelled as `Int`),
strings, lists and dicts (association lists in insertion order, keys unique). -/
inductive JVal where
  | jnull
  | jbool (b : Bool)
  | jnum (n : Int)
  | jstr (s : String)
  | jarr (xs : List JVal)
  | jobj (fields : List (String × JVal))
deriving Repr

/-- Python truthiness test `not v` for a decoded JSON value: `None`, `False`,
`0`, `""`, `[]` and `{}` are falsy. -/
def pyFalsy : JVal → Bool
  | .jnull => true
  | .jbool b => !b
  | .jnum n => n == 0
  | .jstr s => s == ""
  | .jarr xs => xs.isEmpty
  | .jobj fs => fs.isEmpty

/-- JSON string escaping as `json.dumps` performs it with `ensure_ascii=False`:
quotes, backslashes and control characters are escaped, every other character
(including non-ASCII) is kept as is. -/
def jsonEscapeChar (c : Char) : String :=
  if c = '"' then "\\\""
  else if c = '\\' then "\\\\"
  else if c = '\n' then "\\n"
  else if c = '\t' then "\\t"
  else if c = '\r' then "\\r"
  else if c.toNat < 32 then "\\u" ++ (Nat.toDigits 16 c.toNat).asString.leftpad 4 '0'
  else String.singleton c

def jsonEscape (s : String) : String :=
  String.join (s.data.map jsonEscapeChar)

mutual
/-- Python `json.dumps(v, ensure_ascii=False)` with the default separators
`", "` and `": "`, serializing dict fields in insertion order. -/
def json_dumps : JVal → String
  | .jnull => "null"
  | .jbool true => "true"
  | .jbool false => "false"
  | .jnum n => toString n
  | .jstr s => "\"" ++ jsonEscape s ++ "\""
  | .jarr xs => "[" ++ json_dumps_list xs ++ "]"
  | .jobj fs => "\x7b" ++ json_dumps_fields fs ++ "\x7d"

def json_dumps_list : List JVal → String
  | [] => ""
  | [x] => json_dumps x
  | x :: xs => json_dumps x ++ ", " ++ json_dumps_list xs

def json_dumps_fields : List (String × JVal) → String
  | [] => ""
  | [(k, v)] => "\"" ++ jsonEscape k ++ "\": " ++ json_dumps v
  | (k, v) :: fs => "\"" ++ jsonEscape k ++ "\": " ++ json_dumps v ++ ", " ++ json_dumps_fields fs
end

mutual
/-- Python `repr` of a decoded JSON value (used only through `pyStr` on the
last branch of `extract_flowise_text`; string escaping inside `repr` is not
modelled beyond the quotes, as no specified behaviour depends on it). -/
def pyRepr : JVal → String
  | .jnull => "None"
  | .jbool true => "True"
  | .jbool false => "False"
  | .jnum n => toString n
  | .jstr s => "'" ++ s ++ "'"
  | .jarr xs => "[" ++ pyRepr_list xs ++ "]"
  | .jobj fs => "\x7b" ++ pyRepr_fields fs ++ "\x7d"

def pyRepr_list : List JVal → String
  | [] => ""
  | [x] => pyRepr x
  | x :: xs => pyRepr x ++ ", " ++ pyRepr_list xs

def pyRepr_fields : List (String × JVal) → String
  | [] => ""
  | [(k, v)] => "'" ++ k ++ "': " ++ pyRepr v
  | (k, v) :: fs => "'" ++ k ++ "': " ++ pyRepr v ++ ", " ++ pyRepr_fields fs
end

/-- Python `str(v)` for a decoded JSON value: strings verbatim, everything
else via `repr`. -/
def pyStr : JVal → String
  | .jstr s => s
  | v => pyRepr v

/-- Python slice `l[-k:]` for a non-negative `k`.  Crucially, `l[-0:]` is
`l[0:]`, the whole list — not the empty suffix. -/
def pySliceLast (l : List α) (k : Nat) : List α :=
  if k = 0 then l else l.drop (l.length - k)

/-- The whitespace characters Python's `str.strip()` removes (restricted to
the ASCII ones; the inputs in scope are ordinary chat text). -/
def pyIsSpace (c : Char) : Bool :=
  c == ' ' || c == '\t' || c == '\n' || c == '\r' || c.toNat == 11 || c.toNat == 12

/-- Python `s.strip()`: drop leading and trailing whitespace. -/
def pyStrip (s : String) : String :=
  ⟨((s.data.dropWhile pyIsSpace).reverse.dropWhile pyIsSpace).reverse⟩

/-- `criar_historico_inicial` (both files, `app.py` lines 126-136 and
`aula07.py` lines 103-139): returns a one-element history holding the system
prompt.  The prompt text embeds `datetime.now()`, so it is a parameter here. -/
def criar_historico_inicial (system_prompt : String) : List Message :=
  [{ role := "system", content := system_prompt }]

/-- `limitar_historico` from `app.py` (lines 139-144).  There is no guard
for an empty list: `mensagens[0]` raises `IndexError` on `[]`, modelled as
`none`.  `restante[-max_mensagens:]` is the Python slice, so with
`max_mensagens = 0` it keeps the whole remainder. -/
def limitar_historico_app (mensagens : List Message) (max_mensagens : Nat := 20) :
    Option (List Message) :=
  match mensagens with
  | [] => none
  | system_msg :: rest =>
    let restante := if rest.length > max_mensagens then pySliceLast rest max_mensagens else rest
    some (system_msg :: restante)

/-- `limitar_historico` from `aula07.py` (lines 145-157).  `if not mensagens`
recovers an empty history by rebuilding the initial one (whose prompt embeds
`datetime.now()`, passed as `system_prompt`); otherwise identical to the
`app.py` variant. -/
def limitar_historico_aula (system_prompt : String) (mensagens : List Message)
    (max_mensagens : Nat := 20) : List Message :=
  match mensagens with
  | [] => criar_historico_inicial system_prompt
  | system_msg :: rest =>
    let restante := if rest.length > max_mensagens then pySliceLast rest max_mensagens else rest
    system_msg :: restante

/-- Lookup of key `k` in a dict, returning its value only when that value is a
string: Python `k in data and isinstance(data[k], str)` followed by `data[k]`. -/
def getStrField (fields : List (String × JVal)) (k : String) : Option String :=
  match fields.lookup k with
  | some (.jstr s) => some s
  | _ => none

/-- `extract_flowise_text` from `app.py` (lines 58-89).  `none` models the
Python `None` return for falsy input; every other input yields a string. -/
def extract_flowise_text_app (data : JVal) : Option String :=
  if pyFalsy data then none
  else match data with
  | .jobj fields =>
    match getStrField fields "text" with
    | some s => some s
    | none =>
    match getStrField fields "answer" with
    | some s => some s
    | none =>
    match getStrField fields "data" with
    | some s => some s
    | none =>
    match getStrField fields "result" with
    | some s => some s
    | none =>
    match getStrField fields "output" with
    | some s => some s
    | none =>
    match getStrField fields "message" with
    | some s => some s
    | none =>
    match getStrField fields "response" with
    | some s => some s
    | none => some (json_dumps data)
  | .jstr s => some s
  | v => some (pyStr v)

/-- `extract_flowise_text` from `aula07.py` (lines 76-97): same as the
`app.py` variant but WITHOUT the `result`/`output`/`message`/`response`
fallback loop — after `text`, `answer`, `data` it serializes directly. -/
def extract_flowise_text_aula (data : JVal) : Option String :=
  if pyFalsy data then none
  else match data with
  | .jobj fields =>
    match getStrField fields "text" with
    | some s => some s
    | none =>
    match getStrField fields "answer" with
    | some s => some s
    | none =>
    match getStrField fields "data" with
    | some s => some s
    | none => some (json_dumps data)
  | .jstr s => some s
  | v => some (pyStr v)

/-- Environment configuration read by `flowise_predict`:
`FLOWISE_CHAT_URL` and `FLOWISE_API_KEY` (either may be unset or empty,
and `if not url` treats unset and `""` alike). -/
structure FlowiseEnv where
  chatUrl : Option String
  apiKey : Option String
deriving Repr

def FlowiseEnv.urlMissing (env : FlowiseEnv) : Bool :=
  match env.chatUrl with
  | none => true
  | some u => u == ""

/-- Outcome of the `requests.post` call inside `flowise_predict`, made an
explicit parameter of the model.  `success body` is a 2xx response whose body
decoded to `body`; `httpError` is a non-2xx status (`raise_for_status` raises
`HTTPError`, with the status and body text available on `resp`);
`requestError` covers timeouts aside, every other `RequestException`
(connection failures, and malformed JSON bodies — `Response.json` raises
`requests.exceptions.JSONDecodeError`, a `RequestException` subclass). -/
inductive HttpOutcome where
  | success (body : JVal)
  | timeout
  | httpError (status : Nat) (excText : String) (bodyText : String)
  | requestError (msg : String)
deriving Repr

/-- The structured error value both `flowise_predict` variants build:
`{"error": {"message": msg}}`. -/
def errVal (msg : String) : JVal :=
  .jobj [("error", .jobj [("message", .jstr msg)])]

/-- The payload dict `flowise_predict` posts (both files, identically):
`{"question": ...}` plus `chatHistory` / `overrideConfig` keys only when the
corresponding argument is not `None`. -/
def flowise_payload (question : String) (chat_history : Option JVal)
    (override_config : Option JVal) : List (String × JVal) :=
  [("question", .jstr question)]
    ++ (match chat_history with | some ch => [("chatHistory", ch)] | none => [])
    ++ (match override_config with | some oc => [("overrideConfig", oc)] | none => [])

/-- `flowise_predict` from `app.py` (lines 23-55), with the HTTP outcome as a
parameter.  Timeouts and every `RequestException` (which includes `HTTPError`
from `raise_for_status` and JSON decode failures) are converted to the
structured error value; a missing URL short-circuits before any request. -/
def flowise_predict_app (env : FlowiseEnv) (outcome : HttpOutcome) : JVal :=
  if env.urlMissing then
    errVal "FLOWISE_CHAT_URL não configurada no .env"
  else
    match outcome with
    | .success body => body
    | .timeout => errVal "Timeout: Flowise demorou para responder"
    | .httpError _ excText _ => errVal ("Erro na requisição Flowise: " ++ excText)
    | .requestError msg => errVal ("Erro na requisição Flowise: " ++ msg)

/-- `flowise_predict` from `aula07.py` (lines 23-73): same structure, with a
dedicated `HTTPError` branch that embeds the status code and body text, and a
final bare `except Exception` branch (so nothing propagates). -/
def flowise_predict_aula (env : FlowiseEnv) (outcome : HttpOutcome) : JVal :=
  if env.urlMissing then
    errVal "FLOWISE_CHAT_URL não encontrada no arquivo .env"
  else
    match outcome with
    | .success body => body
    | .timeout => errVal "Timeout: Flowise demorou muito para responder"
    | .httpError status excText bodyText =>
      errVal ("Erro HTTP " ++ toString status ++ ": " ++ excText ++ " | Corpo: " ++ bodyText)
    | .requestError msg => errVal ("Erro na requisição: " ++ msg)

/-- Outcome of the upload attempt inside `flowise_upsert` (`app.py` only):
either a decoded 2xx JSON body, or any exception `e` (file-open errors,
timeouts, HTTP errors... — the function catches bare `Exception`), carried
as its `str(e)` text. -/
inductive UpsertOutcome where
  | success (body : JVal)
  | failure (excText : String)
deriving Repr

/-- `flowise_upsert` from `app.py` (lines 92-123).  Note the error shape:
`{"error": str(e)}` — the `"error"` value is a FLAT string, unlike the
nested `{"error": {"message": ...}}` shape `flowise_predict` builds. -/
def flowise_upsert_app (upsertUrl : Option String) (outcome : UpsertOutcome) : JVal :=
  if (match upsertUrl with | none => true | some u => u == "") then
    .jobj [("error", .jstr "FLOWISE_UPSERT_URL não configurada no .env")]
  else
    match outcome with
    | .success body => body
    | .failure excText => .jobj [("error", .jstr excText)]

/-- Does `v` have the exact structured-error shape `{error: {message: string}}`? -/
def isStructuredError (v : JVal) : Bool :=
  match v with
  | .jobj [("error", .jobj [("message", .jstr _)])] => true
  | _ => false

/-- The argument list of the one `flowise_predict` call `enviar_mensagem`
makes: `flowise_predict(question=mensagem_usuario)` — the other two
parameters keep their `None` defaults. -/
structure PredictCall where
  question : String
  chat_history : Option JVal
  override_config : Option JVal
deriving Repr

/-- A Flask JSON response from the handler: the `resposta` text, the
`status` flag, and the HTTP status code. -/
structure ChatResponse where
  resposta : String
  status : String
  httpCode : Nat
deriving DecidableEq, Repr

/-- Observable effect of one `enviar_mensagem` request: the JSON response,
the session-stored history after the request, and the `flowise_predict`
invocation made (if the handler reached that point). -/
structure StepResult where
  response : ChatResponse
  newStored : List Message
  call : Option PredictCall
deriving Repr

/-- `resposta_json.get("error")` guarded by `isinstance(resposta_json, dict)`
and Python truthiness: yields the `"error"` value when present and truthy. -/
def errGet (v : JVal) : Option JVal :=
  match v with
  | .jobj fs =>
    match fs.lookup "error" with
    | some e => if pyFalsy e then none else some e
    | none => none
  | _ => none

/-- `enviar_mensagem` (`app.py` lines 177-207 and `aula07.py` lines 173-208;
the two handler bodies are the same logic line for line, differing only in
which file's `extract_flowise_text` they call, passed here as `extract`).

Modelling notes, all from the source:
* `rawMsg` is `dados.get("mensagem") or ""`; `.strip()` is `pyStrip`.
* `stored` is the session's history; Flask deserializes it afresh from the
  cookie each request, and `session.get("historico") or criar_historico_inicial()`
  replaces an absent or empty value, so `[]` models both.
* The list `append` mutates only the request-local copy; the cookie session
  is rewritten only when `session["historico"] = historico` runs (Flask marks
  the session modified on item assignment, not on nested mutation), so the
  stored history changes only on the success path.
* `upstream` is the value `flowise_predict` returned (compose with
  `flowise_predict_app`/`flowise_predict_aula` to close the loop).
* `resposta_json["error"].get("message", ...)` raises `AttributeError` when
  the truthy `"error"` value is not a dict — modelled as `none` (an uncaught
  exception, answered by the Flask 500 handler); the `{msg}` f-string
  interpolation is `pyStr`.
* `if not texto_ia` treats both `None` and `""` as missing reply text.
* The trim is total here because its argument ends with the just-appended
  user message; `limitar_app_eq_aula_of_ne_nil` below shows the two files'
  `limitar_historico` agree on such input. -/
def enviar_mensagem_core (extract : JVal → Option String) (system_prompt : String)
    (stored : List Message) (rawMsg : String) (upstream : JVal) : Option StepResult :=
  let mensagem_usuario := pyStrip rawMsg
  if mensagem_usuario = "" then
    some { response := ⟨"Mensagem vazia", "erro", 400⟩, newStored := stored, call := none }
  else
    let historico0 := if stored.isEmpty then criar_historico_inicial system_prompt else stored
    let historico1 := historico0 ++ [{ role := "user", content := mensagem_usuario }]
    let historico2 := limitar_historico_aula system_prompt historico1 20
    let call : Option PredictCall :=
      some { question := mensagem_usuario, chat_history := none, override_config := none }
    match errGet upstream with
    | some (.jobj efs) =>
      let msg := match efs.lookup "message" with
                 | some m => pyStr m
                 | none => "Erro desconhecido no Flowise"
      some { response := ⟨"Ops! Tive um problema: " ++ msg, "erro", 500⟩,
             newStored := stored, call := call }
    | some _ => none
    | none =>
      match extract upstream with
      | none =>
        some { response := ⟨"Não consegui obter resposta do Flowise.", "erro", 500⟩,
               newStored := stored, call := call }
      | some t =>
        if t = "" then
          some { response := ⟨"Não consegui obter resposta do Flowise.", "erro", 500⟩,
                 newStored := stored, call := call }
        else
          some { response := ⟨t, "sucesso", 200⟩,
                 newStored := historico2 ++ [{ role := "assistant", content := t }],
                 call := call }

/-- The `/enviar_mensagem` handler of `app.py`. -/
def enviar_mensagem_app (system_prompt : String) (stored : List Message)
    (rawMsg : String) (upstream : JVal) : Option StepResult :=
  enviar_mensagem_core extract_flowise_text_app system_prompt stored rawMsg upstream

/-- The `/enviar_mensagem` handler of `aula07.py`. -/
def enviar_mensagem_aula (system_prompt : String) (stored : List Message)
    (rawMsg : String) (upstream : JVal) : Option StepResult :=
  enviar_mensagem_core extract_flowise_text_aula system_prompt stored rawMsg upstream
theorem pySliceLast_zero (l : List α) : pySliceLast l 0 = l := rfl

theorem pySliceLast_length_of_pos (l : List α) (k : Nat) (hk : k ≠ 0) :
    (pySliceLast l k).length = l.length - (l.length - k) := by
  unfold pySliceLast
  rw [if_neg hk]
  simp [List.length_drop]

theorem limitar_app_eq_aula (sp : String) (a : Message) (t : List Message) (m : Nat) :
    limitar_historico_app (a :: t) m = some (limitar_historico_aula sp (a :: t) m) := rfl

theorem limitar_aula_cons (sp : String) (a : Message) (t : List Message) (m : Nat) :
    limitar_historico_aula sp (a :: t) m =
      a :: (if t.length > m then pySliceLast t m else t) := rfl

theorem limitar_aula_length_cons (sp : String) (a : Message) (t : List Message) (m : Nat)
    (hm : 1 ≤ m) :
    (limitar_historico_aula sp (a :: t) m).length = min (t.length + 1) (m + 1) := by
  rw [limitar_aula_cons]
  by_cases hgt : t.length > m
  · rw [if_pos hgt]
    simp only [List.length_cons, pySliceLast_length_of_pos t m (by omega)]
    omega
  · rw [if_neg hgt]
    simp only [List.length_cons]
    omega

theorem limitar_aula_length_le (sp : String) (h : List Message) (m : Nat) (hm : 1 ≤ m) :
    (limitar_historico_aula sp h m).length ≤ m + 1 := by
  cases h with
  | nil =>
    show (criar_historico_inicial sp).length ≤ m + 1
    simp [criar_historico_inicial]
  | cons a t =>
    rw [limitar_aula_length_cons sp a t m hm]
    omega

theorem limitar_aula_idem (sp : String) (h : List Message) (m : Nat) :
    limitar_historico_aula sp (limitar_historico_aula sp h m) m =
      limitar_historico_aula sp h m := by
  cases h with
  | nil =>
    show limitar_historico_aula sp (criar_historico_inicial sp) m = criar_historico_inicial sp
    rw [criar_historico_inicial, limitar_aula_cons]
    simp
  | cons a t =>
    rw [limitar_aula_cons, limitar_aula_cons]
    by_cases hgt : t.length > m
    · rw [if_pos hgt]
      by_cases hm : m = 0
      · subst hm
        rw [pySliceLast_zero, if_pos hgt, pySliceLast_zero]
      · have hlen : (pySliceLast t m).length = m := by
          rw [pySliceLast_length_of_pos t m hm]
          omega
        rw [hlen, if_neg (by omega)]
    · rw [if_neg hgt, if_neg hgt]

/-- C1: the claim fails at `max_len = 0`: `restante[-0:]` is the whole
remainder, so `limitar_historico` returns the 3-element history unchanged
while the claim demands length `min 3 (0 + 1) = 1`. -/
theorem C1_counterexample :
    limitar_historico_app
        [⟨"system", "S"⟩, ⟨"user", "a"⟩, ⟨"user", "b"⟩] 0 =
      some [⟨"system", "S"⟩, ⟨"user", "a"⟩, ⟨"user", "b"⟩] ∧
    ([(⟨"system", "S"⟩ : Message), ⟨"user", "a"⟩, ⟨"user", "b"⟩].length ≠
      min [(⟨"system", "S"⟩ : Message), ⟨"user", "a"⟩, ⟨"user", "b"⟩].length (0 + 1)) :=
  ⟨rfl, by decide⟩

/-- C1 (amended): for every non-empty history and `max_len ≥ 1`, both files'
`limitar_historico` preserve element 0 and return exactly
`min (len h) (max_len + 1)` messages; for `max_len = 0` the history is
returned unchanged (so element 0 is still preserved, but the length bound
fails). -/
theorem C1_trim_preserves_head_and_bounds (sp : String) (a : Message)
    (t : List Message) (maxLen : Nat) :
    limitar_historico_app (a :: t) maxLen =
      some (limitar_historico_aula sp (a :: t) maxLen) ∧
    (limitar_historico_aula sp (a :: t) maxLen).head? = some a ∧
    (1 ≤ maxLen →
      (limitar_historico_aula sp (a :: t) maxLen).length =
        min (a :: t).length (maxLen + 1)) ∧
    (maxLen = 0 → limitar_historico_aula sp (a :: t) maxLen = a :: t) := by
  refine ⟨limitar_app_eq_aula sp a t maxLen, rfl, ?_, ?_⟩
  · intro hm
    rw [limitar_aula_length_cons sp a t maxLen hm, List.length_cons]
  · intro hm
    subst hm
    rw [limitar_aula_cons, pySliceLast_zero]
    split <;> rfl

theorem C1_witness :
    (limitar_historico_app [⟨"system", "S"⟩, ⟨"user", "a"⟩, ⟨"user", "b"⟩] 1 =
      some (limitar_historico_aula "S" [⟨"system", "S"⟩, ⟨"user", "a"⟩, ⟨"user", "b"⟩] 1)) ∧
    ((limitar_historico_aula "S" [⟨"system", "S"⟩, ⟨"user", "a"⟩, ⟨"user", "b"⟩] 1).length =
      min [(⟨"system", "S"⟩ : Message), ⟨"user", "a"⟩, ⟨"user", "b"⟩].length (1 + 1)) :=
  ⟨(C1_trim_preserves_head_and_bounds "S" ⟨"system", "S"⟩ [⟨"user", "a"⟩, ⟨"user", "b"⟩] 1).1,
   (C1_trim_preserves_head_and_bounds "S" ⟨"system", "S"⟩ [⟨"user", "a"⟩, ⟨"user", "b"⟩] 1).2.2.1
     (by decide)⟩

/-- C2: on the empty history the claim holds only for `aula07.py`; the
`app.py` variant evaluates `mensagens[0]` and raises `IndexError` (modelled
`none`) instead of returning a single-element history. -/
theorem C2_counterexample :
    limitar_historico_app ([] : List Message) 20 = none ∧
    ∀ h : List Message, (none : Option (List Message)) ≠ some h :=
  ⟨rfl, fun _ h => Option.noConfusion h⟩

/-- C2 (amended): `aula07.py`'s `limitar_historico` on the empty history
returns `criar_historico_inicial()` — a single-element history, never empty —
for every `max_len`; `app.py`'s variant instead fails with `IndexError`
(the handler never passes it an empty list, as it appends the user message
first). -/
theorem C2_trim_empty_recovery (sp : String) (maxLen : Nat) :
    limitar_historico_aula sp [] maxLen = criar_historico_inicial sp ∧
    (limitar_historico_aula sp [] maxLen).length = 1 ∧
    limitar_historico_app ([] : List Message) maxLen = none :=
  ⟨rfl, rfl, rfl⟩

/-- C9: trimming is idempotent, in both files, for every history and every
`max_len` (for `app.py`'s failing empty case, the failure composes to the
same failure). -/
theorem C9_trim_idempotent (sp : String) (h : List Message) (maxLen : Nat) :
    limitar_historico_aula sp (limitar_historico_aula sp h maxLen) maxLen =
      limitar_historico_aula sp h maxLen ∧
    (limitar_historico_app h maxLen).bind (fun r => limitar_historico_app r maxLen) =
      limitar_historico_app h maxLen := by
  refine ⟨limitar_aula_idem sp h maxLen, ?_⟩
  cases h with
  | nil => rfl
  | cons a t =>
    rw [limitar_app_eq_aula sp a t maxLen]
    show limitar_historico_app (limitar_historico_aula sp (a :: t) maxLen) maxLen =
      some (limitar_historico_aula sp (a :: t) maxLen)
    rw [limitar_aula_cons, limitar_app_eq_aula sp, ← limitar_aula_cons,
      limitar_aula_idem sp (a :: t) maxLen]


/-- First key in `ks` whose value in `fields` is a string, and that value. -/
def firstStrField (fields : List (String × JVal)) : List String → Option String
  | [] => none
  | k :: ks =>
    match getStrField fields k with
    | some s => some s
    | none => firstStrField fields ks

/-- C3: false on `aula07.py`: its `extract_flowise_text` has no
`result`/`output`/`message`/`response` pass, so `{"result": "X"}` falls
through to `json.dumps` instead of returning `"X"`. -/
theorem C3_counterexample :
    extract_flowise_text_aula (.jobj [("result", .jstr "X")]) = some ("\x7b\"result\": \"X\"\x7d") ∧
    extract_flowise_text_aula (.jobj [("result", .jstr "X")]) ≠ some "X" ∧
    extract_flowise_text_app (.jobj []) = none :=
  ⟨rfl, by decide, rfl⟩

/-- C3 (amended): for every NON-EMPTY mapping, `app.py`'s normalizer returns
the value of the first key among `text`, `answer`, `data`, `result`,
`output`, `message`, `response` that holds a string, else the
`ensure_ascii=False` JSON serialization of the mapping, and never fails;
`aula07.py`'s checks only `text`, `answer`, `data` before serializing.  The
EMPTY mapping is falsy in Python and yields the no-content sentinel instead
of its serialization. -/
theorem C3_normalizer_priority (f : String × JVal) (fs : List (String × JVal)) :
    extract_flowise_text_app (.jobj (f :: fs)) =
      some ((firstStrField (f :: fs)
        ["text", "answer", "data", "result", "output", "message", "response"]).getD
        (json_dumps (.jobj (f :: fs)))) ∧
    extract_flowise_text_aula (.jobj (f :: fs)) =
      some ((firstStrField (f :: fs) ["text", "answer", "data"]).getD
        (json_dumps (.jobj (f :: fs)))) := by
  constructor
  · show (match getStrField (f :: fs) "text" with
      | some s => some s
      | none =>
      match getStrField (f :: fs) "answer" with
      | some s => some s
      | none =>
      match getStrField (f :: fs) "data" with
      | some s => some s
      | none =>
      match getStrField (f :: fs) "result" with
      | some s => some s
      | none =>
      match getStrField (f :: fs) "output" with
      | some s => some s
      | none =>
      match getStrField (f :: fs) "message" with
      | some s => some s
      | none =>
      match getStrField (f :: fs) "response" with
      | some s => some s
      | none => some (json_dumps (.jobj (f :: fs)))) = _
    simp only [firstStrField]
    cases getStrField (f :: fs) "text" <;>
    cases getStrField (f :: fs) "answer" <;>
    cases getStrField (f :: fs) "data" <;>
    cases getStrField (f :: fs) "result" <;>
    cases getStrField (f :: fs) "output" <;>
    cases getStrField (f :: fs) "message" <;>
    cases getStrField (f :: fs) "response" <;>
    rfl
  · show (match getStrField (f :: fs) "text" with
      | some s => some s
      | none =>
      match getStrField (f :: fs) "answer" with
      | some s => some s
      | none =>
      match getStrField (f :: fs) "data" with
      | some s => some s
      | none => some (json_dumps (.jobj (f :: fs)))) = _
    simp only [firstStrField]
    cases getStrField (f :: fs) "text" <;>
    cases getStrField (f :: fs) "answer" <;>
    cases getStrField (f :: fs) "data" <;>
    rfl

/-- C8: false as stated: the EMPTY string is falsy in Python, so
`extract_flowise_text("")` takes the `if not data` branch and returns the
no-content sentinel `None` instead of returning the string verbatim. -/
theorem C8_counterexample :
    extract_flowise_text_app (.jstr "") = none ∧
    extract_flowise_text_aula (.jstr "") = none ∧
    (none : Option String) ≠ some "" :=
  ⟨rfl, rfl, by decide⟩

/-- C8 (amended): both normalizers return the sentinel `None` on absent
(`None`) input — and on any falsy input, which includes the empty string —
and return every NON-EMPTY string verbatim, never failing. -/
theorem C8_normalizer_strings (s : String) (hs : s ≠ "") :
    extract_flowise_text_app (.jstr s) = some s ∧
    extract_flowise_text_aula (.jstr s) = some s ∧
    extract_flowise_text_app .jnull = none ∧
    extract_flowise_text_aula .jnull = none := by
  have hfalsy : pyFalsy (.jstr s) = false := by
    simp [pyFalsy, hs]
  refine ⟨?_, ?_, rfl, rfl⟩ <;>
  · simp only [extract_flowise_text_app, extract_flowise_text_aula, hfalsy]
    rfl

theorem C8_witness :
    extract_flowise_text_app (.jstr "Oi!") = some "Oi!" ∧
    extract_flowise_text_aula (.jstr "Oi!") = some "Oi!" ∧
    extract_flowise_text_app .jnull = none ∧
    extract_flowise_text_aula .jnull = none :=
  C8_normalizer_strings "Oi!" (by decide)

/-- C5: false for `flowise_upsert`: its failure values carry a FLAT string
under `"error"` (here the missing-URL message), not the nested
`{error: {message: string}}` shape the claim requires of both clients. -/
theorem C5_counterexample :
    flowise_upsert_app none (.success .jnull) =
      .jobj [("error", .jstr "FLOWISE_UPSERT_URL não configurada no .env")] ∧
    isStructuredError (flowise_upsert_app none (.success .jnull)) = false :=
  ⟨rfl, rfl⟩

/-- C5 (amended): no client lets a failure propagate: for every environment
and every outcome of the HTTP call, `flowise_predict` (both files) returns
the decoded 2xx body or a value of the exact shape
`{error: {message: string}}`, while `flowise_upsert` returns the decoded 2xx
body or a value of the flat shape `{error: string}`. -/
theorem C5_clients_total (env : FlowiseEnv) (o : HttpOutcome)
    (url : Option String) (uo : UpsertOutcome) :
    (isStructuredError (flowise_predict_app env o) = true ∨
      ∃ b, o = .success b ∧ flowise_predict_app env o = b) ∧
    (isStructuredError (flowise_predict_aula env o) = true ∨
      ∃ b, o = .success b ∧ flowise_predict_aula env o = b) ∧
    ((∃ m, flowise_upsert_app url uo = .jobj [("error", .jstr m)]) ∨
      ∃ b, uo = .success b ∧ flowise_upsert_app url uo = b) := by
  refine ⟨?_, ?_, ?_⟩
  · unfold flowise_predict_app
    by_cases hu : env.urlMissing
    · rw [if_pos hu]; left; rfl
    · rw [if_neg hu]
      cases o with
      | success b => right; exact ⟨b, rfl, rfl⟩
      | timeout => left; rfl
      | httpError s e t => left; rfl
      | requestError m => left; rfl
  · unfold flowise_predict_aula
    by_cases hu : env.urlMissing
    · rw [if_pos hu]; left; rfl
    · rw [if_neg hu]
      cases o with
      | success b => right; exact ⟨b, rfl, rfl⟩
      | timeout => left; rfl
      | httpError s e t => left; rfl
      | requestError m => left; rfl
  · unfold flowise_upsert_app
    by_cases hu : (match url with | none => true | some u => u == "") = true
    · rw [if_pos hu]; left; exact ⟨_, rfl⟩
    · rw [if_neg hu]
      cases uo with
      | success b => right; exact ⟨b, rfl, rfl⟩
      | failure m => left; exact ⟨m, rfl⟩

/-- C7: on a fresh session, message `"Olá"` with the upstream succeeding as
`{"text": "Oi!"}` appends exactly one user and one assistant message (in that
order) to the stored history and answers `{"resposta": "Oi!",
"status": "sucesso"}` — in both files' handlers. -/
theorem C7_fresh_session_round_trip (sp : String) :
    enviar_mensagem_app sp (criar_historico_inicial sp) "Olá"
        (.jobj [("text", .jstr "Oi!")]) =
      some { response := { resposta := "Oi!", status := "sucesso", httpCode := 200 },
             newStored := criar_historico_inicial sp ++
               [{ role := "user", content := "Olá" }, { role := "assistant", content := "Oi!" }],
             call := some { question := "Olá", chat_history := none, override_config := none } } ∧
    enviar_mensagem_aula sp (criar_historico_inicial sp) "Olá"
        (.jobj [("text", .jstr "Oi!")]) =
      some { response := { resposta := "Oi!", status := "sucesso", httpCode := 200 },
             newStored := criar_historico_inicial sp ++
               [{ role := "user", content := "Olá" }, { role := "assistant", content := "Oi!" }],
             call := some { question := "Olá", chat_history := none, override_config := none } } :=
  ⟨rfl, rfl⟩

/-- Case analysis of one `enviar_mensagem` request (either file): an
empty-after-strip message is rejected before the history is touched;
otherwise exactly one `flowise_predict` call is made with only the question,
and the request either ends in an error response with the stored history
untouched, or in a success response whose stored history is the trimmed
history plus the assistant reply. -/
theorem enviar_core_cases (extract : JVal → Option String) (sp : String)
    (stored : List Message) (rawMsg : String) (upstream : JVal) (r : StepResult)
    (hr : enviar_mensagem_core extract sp stored rawMsg upstream = some r) :
    (pyStrip rawMsg = "" ∧
      r = ⟨⟨"Mensagem vazia", "erro", 400⟩, stored, none⟩) ∨
    (pyStrip rawMsg ≠ "" ∧
      r.call = some ⟨pyStrip rawMsg, none, none⟩ ∧
      ((r.response.status = "erro" ∧ r.newStored = stored) ∨
       (r.response.status = "sucesso" ∧
        r.newStored =
          limitar_historico_aula sp
            ((if stored.isEmpty then criar_historico_inicial sp else stored) ++
              [⟨"user", pyStrip rawMsg⟩]) 20 ++
            [⟨"assistant", r.response.resposta⟩]))) := by
  by_cases hne : pyStrip rawMsg = ""
  · left
    refine ⟨hne, ?_⟩
    simp only [enviar_mensagem_core, if_pos hne] at hr
    exact (Option.some.inj hr).symm
  · right
    refine ⟨hne, ?_⟩
    simp only [enviar_mensagem_core, if_neg hne] at hr
    split at hr
    · cases Option.some.inj hr
      exact ⟨rfl, Or.inl ⟨rfl, rfl⟩⟩
    · exact Option.noConfusion hr
    · split at hr
      · cases Option.some.inj hr
        exact ⟨rfl, Or.inl ⟨rfl, rfl⟩⟩
      · split at hr
        · cases Option.some.inj hr
          exact ⟨rfl, Or.inl ⟨rfl, rfl⟩⟩
        · cases Option.some.inj hr
          exact ⟨rfl, Or.inr ⟨rfl, rfl⟩⟩

/-- C4: false: the handler calls `flowise_predict(question=mensagem_usuario)`
only — on a concrete successful round trip the recorded call carries
`chat_history = none`, and the posted payload has no `chatHistory` key, even
though the trimmed session history (`[system, user]`) exists. -/
theorem C4_counterexample :
    enviar_mensagem_app "S" (criar_historico_inicial "S") "Olá"
        (.jobj [("text", .jstr "Oi!")]) =
      some { response := ⟨"Oi!", "sucesso", 200⟩,
             newStored := [⟨"system", "S"⟩, ⟨"user", "Olá"⟩, ⟨"assistant", "Oi!"⟩],
             call := some { question := "Olá", chat_history := none,
                            override_config := none } } ∧
    (flowise_payload "Olá" none none).lookup "chatHistory" = none :=
  ⟨rfl, rfl⟩

/-- C4 (amended): every `flowise_predict` call the handler makes passes only
the stripped question; `chat_history` and `override_config` stay `None`, so
the posted payload contains a `question` key and neither a `chatHistory` nor
an `overrideConfig` key — the trimmed history is kept in the session for the
UI but never supplied upstream. -/
theorem C4_predict_gets_question_only (extract : JVal → Option String) (sp : String)
    (stored : List Message) (rawMsg : String) (upstream : JVal) (r : StepResult)
    (c : PredictCall) (hr : enviar_mensagem_core extract sp stored rawMsg upstream = some r)
    (hc : r.call = some c) :
    c.question = pyStrip rawMsg ∧ c.chat_history = none ∧ c.override_config = none ∧
    (flowise_payload c.question c.chat_history c.override_config).lookup "chatHistory" =
      none ∧
    (flowise_payload c.question c.chat_history c.override_config).lookup "overrideConfig" =
      none ∧
    (flowise_payload c.question c.chat_history c.override_config).lookup "question" =
      some (.jstr c.question) := by
  rcases enviar_core_cases extract sp stored rawMsg upstream r hr with
    ⟨_, rfl⟩ | ⟨_, hcall, _⟩
  · exact Option.noConfusion hc
  · rw [hcall] at hc
    cases Option.some.inj hc
    exact ⟨rfl, rfl, rfl, rfl, rfl, rfl⟩

theorem C4_witness :
    ({ question := "Olá", chat_history := none, override_config := none } :
        PredictCall).question = pyStrip "Olá" ∧
    ({ question := "Olá", chat_history := none, override_config := none } :
        PredictCall).chat_history = none ∧
    ({ question := "Olá", chat_history := none, override_config := none } :
        PredictCall).override_config = none ∧
    (flowise_payload "Olá" none none).lookup "chatHistory" = none ∧
    (flowise_payload "Olá" none none).lookup "overrideConfig" = none ∧
    (flowise_payload "Olá" none none).lookup "question" = some (.jstr "Olá") :=
  C4_predict_gets_question_only extract_flowise_text_app "S" (criar_historico_inicial "S")
    "Olá" (.jobj [("text", .jstr "Oi!")])
    { response := ⟨"Oi!", "sucesso", 200⟩,
      newStored := [⟨"system", "S"⟩, ⟨"user", "Olá"⟩, ⟨"assistant", "Oi!"⟩],
      call := some { question := "Olá", chat_history := none, override_config := none } }
    { question := "Olá", chat_history := none, override_config := none } rfl rfl

/-- C6: every error response of `enviar_mensagem` (empty message, upstream
error value, missing reply text) leaves the stored session history exactly as
it was (the cookie session is only assigned on the success path), so no
assistant message is persisted; and when the upstream returned the structured
error `{error: {message: m}}`, the response text embeds `m`. -/
theorem C6_error_leaves_history (extract : JVal → Option String) (sp : String)
    (stored : List Message) (rawMsg : String) (upstream : JVal) (r : StepResult)
    (hr : enviar_mensagem_core extract sp stored rawMsg upstream = some r) :
    (r.response.status = "erro" → r.newStored = stored) ∧
    (∀ m, upstream = errVal m → pyStrip rawMsg ≠ "" →
      r.response = ⟨"Ops! Tive um problema: " ++ m, "erro", 500⟩ ∧
      r.newStored = stored) := by
  constructor
  · intro hs
    rcases enviar_core_cases extract sp stored rawMsg upstream r hr with
      ⟨_, rfl⟩ | ⟨_, _, ⟨_, h⟩ | ⟨hsuc, _⟩⟩
    · rfl
    · exact h
    · exact absurd (hsuc.symm.trans hs) (by decide)
  · intro m hm hne
    subst hm
    simp only [enviar_mensagem_core, if_neg hne] at hr
    cases Option.some.inj hr
    exact ⟨rfl, rfl⟩

theorem C6_witness :
    (({ response := ⟨"Ops! Tive um problema: boom", "erro", 500⟩,
        newStored := [⟨"system", "S"⟩],
        call := some ⟨"oi", none, none⟩ } : StepResult).response.status = "erro" →
      ({ response := ⟨"Ops! Tive um problema: boom", "erro", 500⟩,
         newStored := [⟨"system", "S"⟩],
         call := some ⟨"oi", none, none⟩ } : StepResult).newStored =
        [⟨"system", "S"⟩]) ∧
    (∀ m, errVal "boom" = errVal m → pyStrip "oi" ≠ "" →
      ({ response := ⟨"Ops! Tive um problema: boom", "erro", 500⟩,
         newStored := [⟨"system", "S"⟩],
         call := some ⟨"oi", none, none⟩ } : StepResult).response =
        ⟨"Ops! Tive um problema: " ++ m, "erro", 500⟩ ∧
      ({ response := ⟨"Ops! Tive um problema: boom", "erro", 500⟩,
         newStored := [⟨"system", "S"⟩],
         call := some ⟨"oi", none, none⟩ } : StepResult).newStored =
        [⟨"system", "S"⟩]) :=
  C6_error_leaves_history extract_flowise_text_app "S" [⟨"system", "S"⟩] "oi"
    (errVal "boom")
    { response := ⟨"Ops! Tive um problema: boom", "erro", 500⟩,
      newStored := [⟨"system", "S"⟩],
      call := some ⟨"oi", none, none⟩ } rfl

/-- C10: after every successful `enviar_mensagem` request the stored history
holds at most `max_mensagens + 2 = 22` messages — the trim bounds it by 21
and the assistant reply is appended AFTER the trim — and 22 is reached: a
22-message stored history is carried back to exactly 22 by a successful turn. -/
theorem C10_persisted_length_bound :
    (∀ (extract : JVal → Option String) (sp : String) (stored : List Message)
      (rawMsg : String) (upstream : JVal) (r : StepResult),
      enviar_mensagem_core extract sp stored rawMsg upstream = some r →
      r.response.status = "sucesso" → r.newStored.length ≤ 22) ∧
    enviar_mensagem_app "S" (List.replicate 22 ⟨"user", "x"⟩) "q"
        (.jobj [("text", .jstr "r")]) =
      some { response := ⟨"r", "sucesso", 200⟩,
             newStored := List.replicate 20 ⟨"user", "x"⟩ ++
               [⟨"user", "q"⟩, ⟨"assistant", "r"⟩],
             call := some ⟨"q", none, none⟩ } ∧
    (List.replicate 20 (⟨"user", "x"⟩ : Message) ++
      ([⟨"user", "q"⟩, ⟨"assistant", "r"⟩] : List Message)).length = 22 := by
  refine ⟨?_, rfl, by simp⟩
  intro extract sp stored rawMsg upstream r hr hs
  rcases enviar_core_cases extract sp stored rawMsg upstream r hr with
    ⟨_, rfl⟩ | ⟨_, _, ⟨herr, _⟩ | ⟨_, hnew⟩⟩
  · simp at hs
  · exact absurd (herr.symm.trans hs) (by decide)
  · rw [hnew, List.length_append]
    have hb := limitar_aula_length_le sp
      ((if stored.isEmpty then criar_historico_inicial sp else stored) ++
        [⟨"user", pyStrip rawMsg⟩]) 20 (by omega)
    simp only [List.length_singleton]
    omega

theorem C10_witness :
    ({ response := ⟨"r", "sucesso", 200⟩,
       newStored := List.replicate 20 (⟨"user", "x"⟩ : Message) ++
         ([⟨"user", "q"⟩, ⟨"assistant", "r"⟩] : List Message),
       call := some ⟨"q", none, none⟩ } : StepResult).newStored.length ≤ 22 :=
  C10_persisted_length_bound.1 extract_flowise_text_app "S"
    (List.replicate 22 ⟨"user", "x"⟩) "q" (.jobj [("text", .jstr "r")])
    { response := ⟨"r", "sucesso", 200⟩,
      newStored := List.replicate 20 ⟨"user", "x"⟩ ++ [⟨"user", "q"⟩, ⟨"assistant", "r"⟩],
      call := some ⟨"q", none, none⟩ } rfl rfl

theorem C2_witness :
    limitar_historico_aula "S" [] 20 = criar_historico_inicial "S" ∧
    (limitar_historico_aula "S" [] 20).length = 1 ∧
    limitar_historico_app ([] : List Message) 20 = none :=
  C2_trim_empty_recovery "S" 20

theorem C3_witness :
    extract_flowise_text_app (.jobj [("foo", .jstr "bar")]) =
      some ((firstStrField [("foo", .jstr "bar")]
        ["text", "answer", "data", "result", "output", "message", "response"]).getD
        (json_dumps (.jobj [("foo", .jstr "bar")]))) ∧
    extract_flowise_text_aula (.jobj [("foo", .jstr "bar")]) =
      some ((firstStrField [("foo", .jstr "bar")] ["text", "answer", "data"]).getD
        (json_dumps (.jobj [("foo", .jstr "bar")]))) :=
  C3_normalizer_priority ("foo", .jstr "bar") []

theorem C5_witness :
    (isStructuredError (flowise_predict_app ⟨some "http://x", none⟩ .timeout) = true ∨
      ∃ b, HttpOutcome.timeout = .success b ∧
        flowise_predict_app ⟨some "http://x", none⟩ .timeout = b) ∧
    (isStructuredError (flowise_predict_aula ⟨some "http://x", none⟩ .timeout) = true ∨
      ∃ b, HttpOutcome.timeout = .success b ∧
        flowise_predict_aula ⟨some "http://x", none⟩ .timeout = b) ∧
    ((∃ m, flowise_upsert_app none (.failure "boom") = .jobj [("error", .jstr m)]) ∨
      ∃ b, UpsertOutcome.failure "boom" = .success b ∧
        flowise_upsert_app none (.failure "boom") = b) :=
  C5_clients_total ⟨some "http://x", none⟩ .timeout none (.failure "boom")

theorem C7_witness :
    enviar_mensagem_app "S" (criar_historico_inicial "S") "Olá"
        (.jobj [("text", .jstr "Oi!")]) =
      some { response := { resposta := "Oi!", status := "sucesso", httpCode := 200 },
             newStored := criar_historico_inicial "S" ++
               [{ role := "user", content := "Olá" }, { role := "assistant", content := "Oi!" }],
             call := some { question := "Olá", chat_history := none, override_config := none } } ∧
    enviar_mensagem_aula "S" (criar_historico_inicial "S") "Olá"
        (.jobj [("text", .jstr "Oi!")]) =
      some { response := { resposta := "Oi!", status := "sucesso", httpCode := 200 },
             newStored := criar_historico_inicial "S" ++
               [{ role := "user", content := "Olá" }, { role := "assistant", content := "Oi!" }],
             call := some { question := "Olá", chat_history := none, override_config := none } } :=
  C7_fresh_session_round_trip "S"

theorem C9_witness :
    limitar_historico_aula "S"
        (limitar_historico_aula "S" [⟨"system", "S"⟩, ⟨"user", "a"⟩] 20) 20 =
      limitar_historico_aula "S" [⟨"system", "S"⟩, ⟨"user", "a"⟩] 20 ∧
    (limitar_historico_app [⟨"system", "S"⟩, ⟨"user", "a"⟩] 20).bind
        (fun r => limitar_historico_app r 20) =
      limitar_historico_app [⟨"system", "S"⟩, ⟨"user", "a"⟩] 20 :=
  C9_trim_idempotent "S" [⟨"system", "S"⟩, ⟨"user", "a"⟩] 20
